import Mathlib

/-!
Verification development for the GitHub error-webhook automation service.

The definitions below are a shallow embedding of `solution.py` (webhook
signature verification, per-event error extraction, the rule-based fallback
analyzer, the AI-analysis entry point, and the `/webhook` handler), of the
pure parts of `devin_client.py`, and — where the repository ships only the
tests of a component — of the components the specification describes
(`classify_severity`, the `/webhook/github` orchestrator, and the
`monitor_session` polling loop).

Modelling constraints the code cannot show by itself: JSON payloads are an
explicit inductive `Json`; dictionary reads of string-valued keys are typed
as `String` with the source defaults (no claim reads a non-string value
from those keys); Python container-to-string rendering is not modelled (no
claim reads it); outbound network calls (HMAC digest, GitHub fetch/post,
OpenAI completion) are inputs of an `Env` record, and the effects a request
would perform are returned as an explicit list.
-/

/-- Minimal JSON value model for webhook payloads. -/
inductive Json where
  | null
  | bool (b : Bool)
  | num (n : Int)
  | str (s : String)
  | arr (xs : List Json)
  | obj (fields : List (String × Json))
deriving Repr

/-- Python `value == "some string"`: true exactly when the JSON value is
that string (equality across Python types is `False`). -/
def Json.eqStr : Json → String → Bool
  | Json.str t, s => t == s
  | _, _ => false

/-- Look a key up in a JSON object; `none` when absent or not an object. -/
def jlookup (j : Json) (k : String) : Option Json :=
  match j with
  | Json.obj fields => fields.lookup k
  | _ => none

/-- Python `d.get(k, default)`. -/
def jgetD (j : Json) (k : String) (d : Json) : Json :=
  (jlookup j k).getD d

/-- Python `d.get(k)` (missing keys become `None`, modelled as `Json.null`). -/
def jget (j : Json) (k : String) : Json :=
  jgetD j k Json.null

/-- Python `d.get(k, default)` for a string-valued key. -/
def getStrD (j : Json) (k : String) (d : String) : String :=
  match jlookup j k with
  | some (Json.str s) => s
  | _ => d

/-- Python `d.get(k)` for an integer-valued key. -/
def jgetInt (j : Json) (k : String) : Option Int :=
  match jlookup j k with
  | some (Json.num n) => some n
  | _ => none

/-- Python truthiness of a JSON value. -/
def jtruthy : Json → Bool
  | Json.null => false
  | Json.bool b => b
  | Json.num n => n != 0
  | Json.str s => s != ""
  | Json.arr xs => !xs.isEmpty
  | Json.obj fields => !fields.isEmpty

/-! ### Character-list scanning (the semantics of the regexes in the source) -/

/-- Does some suffix of the list satisfy `p`? (`re.search` scans every
start position.) -/
def scanAny (p : List Char → Bool) : List Char → Bool
  | [] => p []
  | c :: rest => p (c :: rest) || scanAny p rest

/-- The whitespace class `\s` of the source patterns (ASCII whitespace). -/
def isWsChar (c : Char) : Bool :=
  c == ' ' || c == '\t' || c == '\n' || c == '\r' || c == '\x0b' || c == '\x0c'

/-- Lowercased character list of a string (the `(?i)` flag; ASCII case fold). -/
def lowerChars (s : String) : List Char := s.data.map Char.toLower

/-- `w[:\s](.+)` at the head: the word, one `[:\s]` separator, then at least
one non-newline character (`.` does not match a newline). -/
def atWordSepContent (w : List Char) (s : List Char) : Bool :=
  w.isPrefixOf s &&
    (match s.drop w.length with
     | c :: d :: _ => (c == ':' || isWsChar c) && d != '\n'
     | _ => false)

/-- `w[\s\S]+` at the head: the word then at least one character of any kind. -/
def atWordAnyContent (w : List Char) (s : List Char) : Bool :=
  w.isPrefixOf s && decide (w.length < s.length)

/-- `stack\s*trace` at the head. -/
def atStackTrace (s : List Char) : Bool :=
  "stack".data.isPrefixOf s &&
    "trace".data.isPrefixOf ((s.drop 5).dropWhile isWsChar)

/-- Substring search on character lists. -/
def listContains (s pat : List Char) : Bool :=
  scanAny (fun t => pat.isPrefixOf t) s

/-- Substring search (used for bare-word patterns such as `segfault`). -/
def strContains (s pat : String) : Bool :=
  listContains s.data pat.data

/-- Boolean string prefix test over the character list. -/
def strStartsWith (s pat : String) : Bool :=
  pat.data.isPrefixOf s.data

/-- Boolean string suffix test over the character list. -/
def strEndsWith (s pat : String) : Bool :=
  pat.data.reverse.isPrefixOf s.data.reverse

/-! ### Webhook signature verification (`verify_signature`) -/

/-- `verify_signature` from `solution.py`: skip when no secret is
configured, reject an empty header, otherwise compare the header against
`"sha256=" + hex(HMAC-SHA256(secret, body))`.  The HMAC computation is an
external input `hmacHex secret body`. -/
def verify_signature (secret : String) (hmacHex : String → String → String)
    (payload_body signature_header : String) : Bool :=
  if secret = "" then true
  else if signature_header = "" then false
  else ("sha256=" ++ hmacHex secret payload_body) == signature_header

/-! ### Normalized error info (the dict built by the extractors) -/

structure ErrorInfo where
  source : String
  name : String
  error_message : String
  details : String
  repo : String
  head_sha : String
  url : String
  issue_number : Option Int
  run_id : Option Int
deriving DecidableEq, Repr

/-- `extract_error_from_check_run` from `solution.py`. -/
def extract_error_from_check_run (payload : Json) : Option ErrorInfo :=
  let check_run := jgetD payload "check_run" (Json.obj [])
  if (jget check_run "conclusion").eqStr "failure" = false then none
  else
    let output := jgetD check_run "output" (Json.obj [])
    some { source := "check_run"
           name := getStrD check_run "name" "Unknown Check"
           error_message := getStrD output "summary" "No summary available"
           details := getStrD output "text" ""
           repo := getStrD (jgetD payload "repository" (Json.obj [])) "full_name" ""
           head_sha := getStrD check_run "head_sha" ""
           url := getStrD check_run "html_url" ""
           issue_number := none
           run_id := none }

/-- The seven `error_patterns` of `extract_error_from_issue_comment`,
as a decidable match over the comment body. -/
def commentMatchesErrorPattern (body : String) : Bool :=
  let s := lowerChars body
  scanAny (atWordSepContent "error".data) s ||
  scanAny (atWordSepContent "exception".data) s ||
  scanAny (atWordAnyContent "traceback".data) s ||
  scanAny (atWordSepContent "failed".data) s ||
  scanAny (atWordSepContent "panic".data) s ||
  listContains s "segfault".data ||
  scanAny atStackTrace s

/-- `extract_error_from_issue_comment` from `solution.py`. -/
def extract_error_from_issue_comment (payload : Json) : Option ErrorInfo :=
  let comment := jgetD payload "comment" (Json.obj [])
  let body := getStrD comment "body" ""
  if commentMatchesErrorPattern body = false then none
  else
    let issue := jgetD payload "issue" (Json.obj [])
    some { source := "issue_comment"
           name := "Issue #" ++ (match jgetInt issue "number" with
                                 | some n => toString n
                                 | none => "?")
           error_message := body
           details := ""
           repo := getStrD (jgetD payload "repository" (Json.obj [])) "full_name" ""
           head_sha := ""
           url := getStrD comment "html_url" ""
           issue_number := jgetInt issue "number"
           run_id := none }


/-! ### External collaborators and effects -/

structure JobStep where
  name : String
  failed : Bool
deriving DecidableEq, Repr

structure Job where
  name : String
  failed : Bool
  steps : List JobStep
deriving DecidableEq, Repr

/-- Outbound calls a request would perform, recorded explicitly. -/
inductive Effect where
  | fetchJobs (repo : String) (runId : Int)
  | openaiCall
  | postIssueComment (repo : String) (issueNumber : Int) (body : String)
  | postCommitComment (repo : String) (sha : String) (body : String)
deriving DecidableEq, Repr

/-- Outcomes of the external collaborators, supplied as inputs: the HMAC
digest, the Actions job listing, the OpenAI completion — `Except.error ()`
for a failed request (any `requests.RequestException`, including a
non-JSON body), `Except.ok data` for the parsed JSON body of a 200
response, whose shape may still be arbitrary — and the comment-post
outcome. -/
structure Env where
  webhookSecret : String
  hmacHex : String → String → String
  githubToken : String
  fetchJobsResult : Except String (List Job)
  openaiKey : String
  openaiResult : Except Unit Json
  postResult : Bool

/-- `fetch_workflow_failure_details` from `solution.py`. -/
def fetch_workflow_failure_details (env : Env) (_repo : String) (_run_id : Int) : String :=
  if env.githubToken = "" then "(GitHub token not configured — cannot fetch logs)"
  else
    match env.fetchJobsResult with
    | Except.error exc => "(Failed to fetch workflow jobs: " ++ exc ++ ")"
    | Except.ok jobs =>
      let lines := jobs.flatMap (fun job =>
        if job.failed then
          ("Job: " ++ job.name) ::
            job.steps.filterMap (fun step =>
              if step.failed then some ("  Failed step: " ++ step.name) else none)
        else [])
      if lines = [] then "(No detailed failure info found)"
      else String.intercalate "\n" lines

/-- Python `str(...)` rendering of the scalar JSON values (the source
interpolates the workflow name into an f-string; container
rendering is not modelled because no claim reads it). -/
def pyStr : Json → String
  | Json.null => "None"
  | Json.bool b => if b then "True" else "False"
  | Json.num n => toString n
  | Json.str s => s
  | Json.arr _ => ""
  | Json.obj _ => ""

/-- `extract_error_from_workflow_run` from `solution.py`; the Actions read
it performs is returned as an `Effect`. -/
def extract_error_from_workflow_run (env : Env) (payload : Json) :
    Option ErrorInfo × List Effect :=
  let workflow_run := jgetD payload "workflow_run" (Json.obj [])
  if (jget workflow_run "conclusion").eqStr "failure" = false then (none, [])
  else
    let run_id := jgetInt workflow_run "id"
    let repo := getStrD (jgetD payload "repository" (Json.obj [])) "full_name" ""
    let fetched : String × List Effect :=
      match run_id with
      | some rid =>
        if rid != 0 then
          (fetch_workflow_failure_details env repo rid, [Effect.fetchJobs repo rid])
        else ("", [])
      | none => ("", [])
    (some { source := "workflow_run"
            name := getStrD workflow_run "name" "Unknown Workflow"
            error_message :=
              "Workflow \x27" ++ pyStr (jget workflow_run "name") ++ "\x27 failed"
            details := fetched.1
            repo := repo
            head_sha := getStrD workflow_run "head_sha" ""
            url := getStrD workflow_run "html_url" ""
            issue_number := none
            run_id := run_id },
     fetched.2)

/-! ### Rule-based fallback analysis (`_fallback_analysis`) -/

/-- `(?i)modulenotfounderror|import\s+error`. -/
def matchImportErr (s : List Char) : Bool :=
  listContains s "modulenotfounderror".data ||
  scanAny (fun t =>
    "import".data.isPrefixOf t &&
      (match t.drop 6 with
       | c :: _ => isWsChar c && "error".data.isPrefixOf ((t.drop 6).dropWhile isWsChar)
       | [] => false)) s

/-- `(?i)connection\s*(refused|timeout|reset)`. -/
def matchConnectionErr (s : List Char) : Bool :=
  scanAny (fun t =>
    "connection".data.isPrefixOf t &&
      (let u := (t.drop 10).dropWhile isWsChar
       "refused".data.isPrefixOf u || "timeout".data.isPrefixOf u ||
         "reset".data.isPrefixOf u)) s

/-- `(?i)permission\s*denied`. -/
def matchPermissionErr (s : List Char) : Bool :=
  scanAny (fun t =>
    "permission".data.isPrefixOf t &&
      "denied".data.isPrefixOf ((t.drop 10).dropWhile isWsChar)) s

/-- `(?i)out\s*of\s*memory|oom`. -/
def matchOomErr (s : List Char) : Bool :=
  scanAny (fun t =>
    "out".data.isPrefixOf t &&
      (let u := (t.drop 3).dropWhile isWsChar
       "of".data.isPrefixOf u &&
         "memory".data.isPrefixOf ((u.drop 2).dropWhile isWsChar))) s ||
  listContains s "oom".data

/-- The ordered `rules` table of `_fallback_analysis`: pattern matcher
(applied to the lowercased combined text) and advice string. -/
def fallbackRules : List ((List Char → Bool) × String) :=
  [ (matchImportErr,
     "A Python import failed. Ensure the dependency is listed in " ++
     "requirements.txt / pyproject.toml and installed."),
    (fun s => listContains s "syntaxerror".data,
     "There is a syntax error in the code. Check the indicated file " ++
     "and line number for typos or missing punctuation."),
    (fun s => listContains s "typeerror".data,
     "A TypeError occurred. Verify that function arguments and " ++
     "variable types match their expected signatures."),
    (matchConnectionErr,
     "A network connection issue occurred. Verify that the target " ++
     "service is running and reachable."),
    (matchPermissionErr,
     "A permission error occurred. Check file/directory permissions " ++
     "and credentials."),
    (matchOomErr,
     "The process ran out of memory. Consider optimising memory usage " ++
     "or increasing resource limits."),
    (fun s => listContains s "timeout".data,
     "An operation timed out. Check for slow queries, network issues, " ++
     "or increase the timeout threshold.") ]

def genericAdvice : String :=
  "Unable to determine an automatic fix. " ++
  "Please review the error details manually."

/-- The suggestion list collected by `_fallback_analysis`. -/
def fallbackSuggestions (combined : String) : List String :=
  let matched := (fallbackRules.filter (fun r => r.1 (lowerChars combined))).map Prod.snd
  if matched = [] then [genericAdvice] else matched

/-- The header line of `_fallback_analysis`. -/
def fallbackHeader (info : ErrorInfo) : String :=
  "**Automated Error Analysis** (source: `" ++ info.source ++
    "`, name: `" ++ info.name ++ "`)\n\n"

/-- `msg[:300] + ("..." if len(msg) > 300 else "")`. -/
def truncateMsg (m : String) : String :=
  (m.data.take 300).asString ++ (if 300 < m.length then "..." else "")

/-- The quoted-error footer of `_fallback_analysis`. -/
def fallbackFooter (info : ErrorInfo) : String :=
  "\n\n> Error: `" ++ truncateMsg info.error_message ++ "`"

/-- `_fallback_analysis` from `solution.py`. -/
def fallback_analysis (info : ErrorInfo) : String :=
  let combined := info.error_message ++ "\n" ++ info.details
  fallbackHeader info ++
    String.intercalate "\n" ((fallbackSuggestions combined).map (fun s => "- " ++ s)) ++
    fallbackFooter info

/-- The Python exceptions a subscript chain can raise. -/
inductive PyExc where
  | keyError
  | indexError
  | typeError
deriving DecidableEq, Repr

/-- Python `x[k]` for a string key: a lookup on a dict (`KeyError` when
absent), `TypeError` on a list, a string, or any non-subscriptable value. -/
def pyGetStr (j : Json) (k : String) : Except PyExc Json :=
  match j with
  | Json.obj fields =>
    match fields.lookup k with
    | some v => Except.ok v
    | none => Except.error PyExc.keyError
  | _ => Except.error PyExc.typeError

/-- Python `x[i]` for an integer index: indexing on a list or a string
(`IndexError` past the end), `KeyError` on a string-keyed dict, `TypeError`
on any non-subscriptable value. -/
def pyGetIdx (j : Json) (i : Nat) : Except PyExc Json :=
  match j with
  | Json.arr xs =>
    match xs.get? i with
    | some v => Except.ok v
    | none => Except.error PyExc.indexError
  | Json.obj _ => Except.error PyExc.keyError
  | Json.str s =>
    match s.data.get? i with
    | some c => Except.ok (Json.str (String.singleton c))
    | none => Except.error PyExc.indexError
  | _ => Except.error PyExc.typeError

/-- The extraction `data["choices"][0]["message"]["content"]` performed at
`solution.py:301` on the parsed OpenAI response, with Python subscript
semantics. -/
def openaiContent (data : Json) : Except PyExc Json := do
  let choices ← pyGetStr data "choices"
  let first ← pyGetIdx choices 0
  let message ← pyGetStr first "message"
  pyGetStr message "content"

/-- `agent_analyze_error` from `solution.py`: fall back when no key is
configured or the request fails; on a 200 response extract
`choices[0].message.content` — the `except (KeyError, IndexError)` clause
turns those two exceptions into the fallback, but a `TypeError` (a
response of the wrong JSON type) is uncaught and propagates; a successful
extraction is returned verbatim, whatever value it is. -/
def agent_analyze_error (openaiKey : String) (backend : Except Unit Json)
    (info : ErrorInfo) : Except PyExc Json :=
  if openaiKey = "" then Except.ok (Json.str (fallback_analysis info))
  else
    match backend with
    | Except.error _ => Except.ok (Json.str (fallback_analysis info))
    | Except.ok data =>
      match openaiContent data with
      | Except.ok content => Except.ok content
      | Except.error PyExc.keyError => Except.ok (Json.str (fallback_analysis info))
      | Except.error PyExc.indexError => Except.ok (Json.str (fallback_analysis info))
      | Except.error PyExc.typeError => Except.error PyExc.typeError

/-! ### Responding on GitHub (`respond_to_error`) and the `/webhook` route -/

/-- `post_github_comment` from `solution.py` (network call as an effect,
outcome from the environment). -/
def post_github_comment (env : Env) (repo : String) (issue_number : Int)
    (body : String) : Bool × List Effect :=
  if env.githubToken = "" then (false, [])
  else (env.postResult, [Effect.postIssueComment repo issue_number body])

/-- `create_commit_comment` from `solution.py`. -/
def create_commit_comment (env : Env) (repo sha body : String) : Bool × List Effect :=
  if env.githubToken = "" then (false, [])
  else (env.postResult, [Effect.postCommitComment repo sha body])

/-- The comment body built by `respond_to_error`. -/
def responseCommentBody (info : ErrorInfo) (analysis : String) : String :=
  "## Automated Error Analysis\n\n" ++ analysis ++ "\n\n---\n" ++
    "*Generated by [webhook-agent](" ++ info.url ++ ")*"

/-- `respond_to_error` from `solution.py`: issue comment when the report
has a truthy issue number, else commit comment when it has a commit sha,
else dropped with a warning. -/
def respond_to_error (env : Env) (info : ErrorInfo) (analysis : String) :
    Bool × List Effect :=
  if info.repo = "" then (false, [])
  else
    let body := responseCommentBody info analysis
    match info.issue_number with
    | some n =>
      if n != 0 then post_github_comment env info.repo n body
      else if info.head_sha != "" then create_commit_comment env info.repo info.head_sha body
      else (false, [])
    | none =>
      if info.head_sha != "" then create_commit_comment env info.repo info.head_sha body
      else (false, [])

/-- Responses of the `/webhook` route of `solution.py`; `serverError` is
the 500 Flask produces when an uncaught exception escapes the handler. -/
inductive WResp where
  | unauthorized
  | ignoredUnsupported (eventType : String)
  | ignoredNoError
  | processed (source name : String) (analysisLength : Nat) (posted : Bool)
  | serverError
deriving DecidableEq, Repr

/-- HTTP status code of a `/webhook` response. -/
def WResp.statusCode : WResp → Nat
  | WResp.unauthorized => 401
  | WResp.serverError => 500
  | _ => 200

/-- The `status` field of the JSON body of a `/webhook` response (only the
200 responses carry a JSON body with this field; the labels for the error
responses are nominal). -/
def WResp.statusField : WResp → String
  | WResp.unauthorized => "unauthorized"
  | WResp.ignoredUnsupported _ => "ignored"
  | WResp.ignoredNoError => "ignored"
  | WResp.processed _ _ _ _ => "processed"
  | WResp.serverError => "error"

/-- Python `len(x)`: defined on strings, lists and dicts, `TypeError`
otherwise (`handle_webhook` logs `len(analysis)` before responding). -/
def pyLen : Json → Except PyExc Nat
  | Json.str s => Except.ok s.length
  | Json.arr xs => Except.ok xs.length
  | Json.obj fields => Except.ok fields.length
  | _ => Except.error PyExc.typeError

/-- The analysis/respond tail of `handle_webhook` once an error was
extracted: an exception escaping `agent_analyze_error` or the `len` call
propagates to a 500. -/
def processExtracted (env : Env) (info : ErrorInfo) (effs : List Effect) :
    WResp × List Effect :=
  let analysisEffs : List Effect := if env.openaiKey = "" then [] else [Effect.openaiCall]
  match agent_analyze_error env.openaiKey env.openaiResult info with
  | Except.error _ => (WResp.serverError, effs ++ analysisEffs)
  | Except.ok analysis =>
    match pyLen analysis with
    | Except.error _ => (WResp.serverError, effs ++ analysisEffs)
    | Except.ok n =>
      let posted := respond_to_error env info (pyStr analysis)
      (WResp.processed info.source info.name n posted.1,
       effs ++ analysisEffs ++ posted.2)

/-- `handle_webhook` from `solution.py`: verify the signature, parse the
body (`get_json(silent=True) or {}` — an unparseable or falsy body becomes
the empty object), dispatch on the event type through `EVENT_EXTRACTORS`,
and either ignore or analyze-and-respond. -/
def handle_webhook (env : Env) (signature rawBody eventType : String)
    (parsed : Option Json) : WResp × List Effect :=
  if verify_signature env.webhookSecret env.hmacHex rawBody signature = false then
    (WResp.unauthorized, [])
  else
    let payload := match parsed with
      | some j => if jtruthy j then j else Json.obj []
      | none => Json.obj []
    if eventType = "check_run" then
      match extract_error_from_check_run payload with
      | none => (WResp.ignoredNoError, [])
      | some info => processExtracted env info []
    else if eventType = "workflow_run" then
      match extract_error_from_workflow_run env payload with
      | (none, effs) => (WResp.ignoredNoError, effs)
      | (some info, effs) => processExtracted env info effs
    else if eventType = "issue_comment" then
      match extract_error_from_issue_comment payload with
      | none => (WResp.ignoredNoError, [])
      | some info => processExtracted env info []
    else (WResp.ignoredUnsupported eventType, [])

/-! ### Spec-modelled components

The second webhook variant of the repository — the issue-triage orchestrator
exercised by `src/tests/test.py` (`classify_severity`, `create_devin_session`
dispatch, `monitor_session`, endpoint `/webhook/github`) — is not under
`src/`; only its tests and the `devin_client.py` collaborator are.  The
definitions below model it from the specification. -/

/-- Modelled from the spec: `classify_severity(title, body)` — missing from
`src/`, imported by `src/tests/test.py`.  Case-insensitive substring
matching over the concatenation of title and body, first match wins:
"race condition"/"concurrency" → large; "refactor" → medium;
"500"/"validation"/"error" → small; default medium. -/
def classify_severity (title body : String) : String :=
  let s := lowerChars (title ++ body)
  if listContains s "race condition".data || listContains s "concurrency".data then
    "large"
  else if listContains s "refactor".data then "medium"
  else if listContains s "500".data || listContains s "validation".data ||
      listContains s "error".data then "small"
  else "medium"

/-- Task lifecycle states of a `RemediationTask`. -/
inductive TaskStatus where
  | submitted
  | inProgress
  | completed
  | failed
  | suspended
deriving DecidableEq, Repr

/-- The terminal statuses: Completed, Failed, Suspended. -/
def TaskStatus.isTerminal : TaskStatus → Bool
  | TaskStatus.completed => true
  | TaskStatus.failed => true
  | TaskStatus.suspended => true
  | _ => false

/-- Modelled from the spec: the mapping of the external agent status
strings (`devin_client.check_session_status` documents exit/error/suspended)
onto the lifecycle states — "completed"/"exit" → Completed,
"failed"/"error" → Failed, "suspended" → Suspended, anything else is still
in progress. -/
def map_agent_status (s : String) : TaskStatus :=
  if s = "completed" || s = "exit" then TaskStatus.completed
  else if s = "failed" || s = "error" then TaskStatus.failed
  else if s = "suspended" then TaskStatus.suspended
  else TaskStatus.inProgress

/-- The tracked record of one dispatched unit of agent work. -/
structure RemediationTask where
  task_id : String
  status : TaskStatus
  notifications : Nat
deriving DecidableEq, Repr

/-- Modelled from the spec: one iteration of the background poller of
`monitor_session` (missing from `src/`, patched by `src/tests/test.py`).
A poller that already saw a terminal status has stopped, so the record is
untouched; a failed status query (`none`) is retried without a transition;
a terminal observation transitions the record and posts the notification
as one step; any other status keeps polling. -/
def poll_step (t : RemediationTask) (observed : Option String) : RemediationTask :=
  if t.status.isTerminal then t
  else
    match observed with
    | none => t
    | some s =>
      let st := map_agent_status s
      if st.isTerminal then
        { t with status := st, notifications := t.notifications + 1 }
      else { t with status := TaskStatus.inProgress }

/-- Modelled from the spec: the whole polling loop of `monitor_session`
over the sequence of status observations it makes. -/
def monitor_session (t : RemediationTask) (observations : List (Option String)) :
    RemediationTask :=
  observations.foldl poll_step t

/-- Responses of the `/webhook/github` triage endpoint. -/
inductive TriageResponse where
  | unauthorized
  | ignored (reason : String)
  | accepted (session_id severity : String)
deriving DecidableEq, Repr

/-- Does the issue carry the `devin-triage` label? -/
def hasTriageLabel (issue : Json) : Bool :=
  match jgetD issue "labels" (Json.arr []) with
  | Json.arr labels => labels.any (fun l => (jget l "name").eqStr "devin-triage")
  | _ => false

/-- Modelled from the spec: the `/webhook/github` orchestrator endpoint
(missing from `src/`, exercised by `src/tests/test.py`): verify the
signature, ignore a payload without an issue or without the triage label,
otherwise classify and submit a Devin session, answering with the new
session id and severity.  `sessionId` is the id the external task-creation
API returns. -/
def handle_github_webhook (env : Env) (signature rawBody : String)
    (payload : Json) (sessionId : String) : TriageResponse :=
  if verify_signature env.webhookSecret env.hmacHex rawBody signature = false then
    TriageResponse.unauthorized
  else
    match jlookup payload "issue" with
    | none => TriageResponse.ignored "not an issue event"
    | some issue =>
      if hasTriageLabel issue = false then
        TriageResponse.ignored "issue not labeled for triage"
      else
        TriageResponse.accepted sessionId
          (classify_severity (getStrD issue "title" "") (getStrD issue "body" ""))

/-- Modelled from the spec: the synchronous request path plus the
background lifecycle of the submitted task — the response is produced
before the poller runs, and the observations of the poller only drive the
background record. -/
def triage_system (env : Env) (signature rawBody : String) (payload : Json)
    (sessionId : String) (observations : List (Option String)) :
    TriageResponse × Option RemediationTask :=
  match handle_github_webhook env signature rawBody payload sessionId with
  | TriageResponse.accepted sid sev =>
    (TriageResponse.accepted sid sev,
     some (monitor_session ⟨sid, TaskStatus.submitted, 0⟩ observations))
  | r => (r, none)

/-! ### Helper lemmas -/

lemma listStarts (p l : List Char) : p.isPrefixOf (p ++ l) = true := by
  rw [List.isPrefixOf_iff_prefix]
  exact ⟨l, rfl⟩

lemma scanAny_here (p : List Char → Bool) (s : List Char) (h : p s = true) :
    scanAny p s = true := by
  cases s <;> simp [scanAny, h]

lemma scanAny_skip (p : List Char → Bool) (l s : List Char)
    (h : scanAny p s = true) : scanAny p (l ++ s) = true := by
  induction l with
  | nil => simpa using h
  | cons c cs ih => simp [scanAny, ih]

lemma listContains_decomp (a p b : List Char) :
    listContains (a ++ (p ++ b)) p = true := by
  apply scanAny_skip
  exact scanAny_here _ _ (listStarts p b)

lemma string_append_ne_empty (a b : String) (h : a ≠ "") : a ++ b ≠ "" := by
  intro hc
  apply h
  have hd : a.data ++ b.data = ([] : List Char) := by
    have := congrArg String.data hc
    rwa [String.data_append] at this
  have ha : a.data = [] := (List.append_eq_nil.mp hd).1
  cases a
  simp_all

lemma monitor_session_nil (t : RemediationTask) : monitor_session t [] = t := rfl

lemma monitor_session_cons (t : RemediationTask) (o : Option String)
    (os : List (Option String)) :
    monitor_session t (o :: os) = monitor_session (poll_step t o) os := rfl

lemma poll_step_terminal (t : RemediationTask) (o : Option String)
    (h : t.status.isTerminal = true) : poll_step t o = t := by
  simp [poll_step, h]

lemma monitor_session_terminal (t : RemediationTask) (obs : List (Option String))
    (h : t.status.isTerminal = true) : monitor_session t obs = t := by
  induction obs with
  | nil => rfl
  | cons o os ih => rw [monitor_session_cons, poll_step_terminal t o h]; exact ih

lemma monitor_session_append (t : RemediationTask) (obs obs' : List (Option String)) :
    monitor_session t (obs ++ obs') = monitor_session (monitor_session t obs) obs' :=
  List.foldl_append poll_step t obs obs'

lemma monitor_session_notifications (obs : List (Option String)) :
    ∀ t : RemediationTask, t.status.isTerminal = false → t.notifications = 0 →
      (monitor_session t obs).notifications =
        if (monitor_session t obs).status.isTerminal then 1 else 0 := by
  induction obs with
  | nil =>
    intro t ht hn
    rw [monitor_session_nil, ht]
    simpa using hn
  | cons o os ih =>
    intro t ht hn
    rw [monitor_session_cons]
    cases o with
    | none =>
      have : poll_step t none = t := by simp [poll_step, ht]
      rw [this]
      exact ih t ht hn
    | some s =>
      by_cases hst : (map_agent_status s).isTerminal = true
      · have hstep : poll_step t (some s) =
            { t with status := map_agent_status s, notifications := t.notifications + 1 } := by
          simp [poll_step, ht, hst]
        rw [hstep, monitor_session_terminal _ _ (by simpa using hst)]
        simp [hst, hn]
      · have hstep : poll_step t (some s) = { t with status := TaskStatus.inProgress } := by
          simp [poll_step, ht, hst]
        rw [hstep]
        exact ih _ (by simp [TaskStatus.isTerminal]) (by simpa using hn)

/-! ### Claim theorems -/

/-- C1: once a `RemediationTask` reaches a terminal status it never changes
again, and exactly one notification is posted for it — a repeated terminal
observation (a stale duplicate poll) changes nothing and posts nothing.
(spec-modelled: the `monitor_session` poll loop is not under `src/`.) -/
theorem c1_terminal_once :
    ∀ (t : RemediationTask) (obs obs' : List (Option String)),
      ((monitor_session t obs).status.isTerminal = true →
         monitor_session t (obs ++ obs') = monitor_session t obs) ∧
      (t.status.isTerminal = false → t.notifications = 0 →
         (monitor_session t obs).notifications =
           if (monitor_session t obs).status.isTerminal then 1 else 0) := by
  intro t obs obs'
  constructor
  · intro h
    rw [monitor_session_append, monitor_session_terminal _ _ h]
  · exact fun ht hn => monitor_session_notifications obs t ht hn

/-- Witness for C1 at a concrete task: a successful poll followed by a
stale duplicate of the same terminal status leaves the record unchanged
and the notification count at exactly one. -/
theorem c1_terminal_once_witness :
    monitor_session ⟨"session-123", TaskStatus.submitted, 0⟩
        ([some "completed"] ++ [some "completed"]) =
      monitor_session ⟨"session-123", TaskStatus.submitted, 0⟩ [some "completed"] ∧
    (monitor_session ⟨"session-123", TaskStatus.submitted, 0⟩ [some "completed"]).notifications =
      if (monitor_session ⟨"session-123", TaskStatus.submitted, 0⟩
            [some "completed"]).status.isTerminal then 1 else 0 := by
  have h := c1_terminal_once ⟨"session-123", TaskStatus.submitted, 0⟩
    [some "completed"] [some "completed"]
  exact ⟨h.1 (by decide), h.2 (by decide) (by decide)⟩

/-- C3: `classify_severity` is a pure function of the lowercased
concatenation of title and body (hence deterministic and case-insensitive),
and the first matching rule wins in priority order: "race condition" or
"concurrency" give large regardless of any other trigger; otherwise
"refactor" gives medium; otherwise "500", "validation" or "error" give
small; otherwise medium.
(spec-modelled: `classify_severity` is not under `src/`; only
`src/tests/test.py` imports it.) -/
theorem c3_classifier_priority :
    ∀ title body title2 body2 : String,
      (lowerChars (title ++ body) = lowerChars (title2 ++ body2) →
         classify_severity title body = classify_severity title2 body2) ∧
      ((listContains (lowerChars (title ++ body)) "race condition".data = true ∨
        listContains (lowerChars (title ++ body)) "concurrency".data = true) →
         classify_severity title body = "large") ∧
      (listContains (lowerChars (title ++ body)) "race condition".data = false →
       listContains (lowerChars (title ++ body)) "concurrency".data = false →
       listContains (lowerChars (title ++ body)) "refactor".data = true →
         classify_severity title body = "medium") ∧
      (listContains (lowerChars (title ++ body)) "race condition".data = false →
       listContains (lowerChars (title ++ body)) "concurrency".data = false →
       listContains (lowerChars (title ++ body)) "refactor".data = false →
       (listContains (lowerChars (title ++ body)) "500".data = true ∨
        listContains (lowerChars (title ++ body)) "validation".data = true ∨
        listContains (lowerChars (title ++ body)) "error".data = true) →
         classify_severity title body = "small") ∧
      (listContains (lowerChars (title ++ body)) "race condition".data = false →
       listContains (lowerChars (title ++ body)) "concurrency".data = false →
       listContains (lowerChars (title ++ body)) "refactor".data = false →
       listContains (lowerChars (title ++ body)) "500".data = false →
       listContains (lowerChars (title ++ body)) "validation".data = false →
       listContains (lowerChars (title ++ body)) "error".data = false →
         classify_severity title body = "medium") := by
  intro title body title2 body2
  refine ⟨?_, ?_, ?_, ?_, ?_⟩
  · intro h
    simp only [classify_severity, h]
  · rintro (h | h) <;> simp [classify_severity, h]
  · intro h1 h2 h3
    simp [classify_severity, h1, h2, h3]
  · rintro h1 h2 h3 (h | h | h) <;> simp [classify_severity, h1, h2, h3, h]
  · intro h1 h2 h3 h4 h5 h6
    simp [classify_severity, h1, h2, h3, h4, h5, h6]

/-- Witness for C3 at the concrete inputs of `src/tests/test.py`, plus a
case-insensitivity instance. -/
theorem c3_classifier_priority_witness :
    classify_severity "Race condition in queue" "concurrency bug" = "large" ∧
    classify_severity "Refactor auth module" "needs refactor" = "medium" ∧
    classify_severity "500 Internal Server Error on /api/users endpoint"
        "server returns a 500 error" = "small" ∧
    classify_severity "Update readme" "typo fix" = "medium" ∧
    classify_severity "RACE CONDITION" "somewhere" =
      classify_severity "race condition" "SOMEWHERE" := by
  refine ⟨?_, ?_, ?_, ?_, ?_⟩
  · exact (c3_classifier_priority "Race condition in queue" "concurrency bug" "" "").2.1
      (Or.inl (by decide))
  · exact (c3_classifier_priority "Refactor auth module" "needs refactor" "" "").2.2.1
      (by decide) (by decide) (by decide)
  · exact (c3_classifier_priority "500 Internal Server Error on /api/users endpoint"
      "server returns a 500 error" "" "").2.2.2.1
      (by decide) (by decide) (by decide) (Or.inl (by decide))
  · exact (c3_classifier_priority "Update readme" "typo fix" "" "").2.2.2.2
      (by decide) (by decide) (by decide) (by decide) (by decide) (by decide)
  · exact (c3_classifier_priority "RACE CONDITION" "somewhere"
      "race condition" "SOMEWHERE").1 (by decide)

/-- A placeholder HMAC digest function for concrete instantiations. -/
def demoHmac : String → String → String := fun _ _ => "d41d8cd98f"

/-- A concrete environment with no webhook secret configured. -/
def demoEnv : Env :=
  { webhookSecret := ""
    hmacHex := demoHmac
    githubToken := "tok"
    fetchJobsResult := Except.ok []
    openaiKey := ""
    openaiResult := Except.error ()
    postResult := true }

/-- The labeled issue of the sample payload of `src/tests/test.py`. -/
def triageIssue : Json :=
  Json.obj
    [("number", Json.num 42),
     ("title", Json.str "500 Internal Server Error on /api/users endpoint"),
     ("body", Json.str "server returns a 500 error"),
     ("labels", Json.arr
        [Json.obj [("id", Json.num 1), ("name", Json.str "bug")],
         Json.obj [("id", Json.num 2), ("name", Json.str "devin-triage")]])]

/-- A sample triage webhook payload carrying `triageIssue`. -/
def triagePayload : Json :=
  Json.obj
    [("action", Json.str "labeled"),
     ("issue", triageIssue),
     ("repository", Json.obj [("full_name", Json.str "tkirby926/Devin-Solution")])]

/-- C2: for an actionable event (an issue labeled for triage) with a valid
signature, the handler answers synchronously with the new task id and the
classified severity, and the response does not depend on anything the
background poller later observes — it never waits on task completion.
(spec-modelled: the `/webhook/github` orchestrator is not under `src/`;
only `src/tests/test.py` exercises it.) -/
theorem c2_accepted_immediately :
    ∀ (env : Env) (sig raw : String) (payload issue : Json) (sessionId : String)
      (obs : List (Option String)),
      verify_signature env.webhookSecret env.hmacHex raw sig = true →
      jlookup payload "issue" = some issue →
      hasTriageLabel issue = true →
      (triage_system env sig raw payload sessionId obs).1 =
        TriageResponse.accepted sessionId
          (classify_severity (getStrD issue "title" "") (getStrD issue "body" "")) ∧
      ∀ obs', (triage_system env sig raw payload sessionId obs).1 =
              (triage_system env sig raw payload sessionId obs').1 := by
  intro env sig raw payload issue sessionId obs hv hissue hlabel
  have hhandle : handle_github_webhook env sig raw payload sessionId =
      TriageResponse.accepted sessionId
        (classify_severity (getStrD issue "title" "") (getStrD issue "body" "")) := by
    simp [handle_github_webhook, hv, hissue, hlabel]
  constructor
  · simp [triage_system, hhandle]
  · intro obs'
    simp [triage_system, hhandle]

/-- Witness for C2 at the sample payload of `src/tests/test.py`: the
response is `accepted` with the session id and severity "small", whether
the poller later observes nothing or a completed session. -/
theorem c2_accepted_immediately_witness :
    (triage_system demoEnv "sig" "raw" triagePayload "session-123"
        [some "completed"]).1 =
      TriageResponse.accepted "session-123"
        (classify_severity (getStrD triageIssue "title" "")
          (getStrD triageIssue "body" "")) ∧
    (triage_system demoEnv "sig" "raw" triagePayload "session-123"
        [some "completed"]).1 =
      (triage_system demoEnv "sig" "raw" triagePayload "session-123" []).1 := by
  have h := c2_accepted_immediately demoEnv "sig" "raw" triagePayload triageIssue
    "session-123" [some "completed"] (by decide) rfl (by decide)
  exact ⟨h.1, h.2 []⟩

/-- C4: with a secret configured, any request whose signature header is not
`"sha256=" + hex(HMAC-SHA256(secret, raw body))` is rejected with 401
before any processing — no extractor runs, no outbound effect happens,
no state is touched. -/
theorem c4_invalid_signature_rejected :
    ∀ (env : Env) (sig raw eventType : String) (parsed : Option Json),
      env.webhookSecret ≠ "" →
      sig ≠ "sha256=" ++ env.hmacHex env.webhookSecret raw →
      verify_signature env.webhookSecret env.hmacHex raw sig = false ∧
      handle_webhook env sig raw eventType parsed = (WResp.unauthorized, []) ∧
      (handle_webhook env sig raw eventType parsed).1.statusCode = 401 := by
  intro env sig raw eventType parsed hsecret hsig
  have hv : verify_signature env.webhookSecret env.hmacHex raw sig = false := by
    rw [verify_signature, if_neg hsecret]
    by_cases hempty : sig = ""
    · simp [hempty]
    · rw [if_neg hempty]
      exact beq_eq_false_iff_ne.mpr (Ne.symm hsig)
  refine ⟨hv, ?_, ?_⟩ <;> simp [handle_webhook, hv, WResp.statusCode]

/-- A concrete environment with a configured webhook secret. -/
def demoEnvWithSecret : Env :=
  { demoEnv with webhookSecret := "sec" }

/-- Witness for C4 at a concrete environment with secret "sec" and a
tampered signature header. -/
theorem c4_invalid_signature_rejected_witness :
    verify_signature demoEnvWithSecret.webhookSecret demoEnvWithSecret.hmacHex
        "tampered body" "sha256=bad" = false ∧
    handle_webhook demoEnvWithSecret "sha256=bad" "tampered body" "check_run" none =
      (WResp.unauthorized, []) ∧
    (handle_webhook demoEnvWithSecret "sha256=bad" "tampered body" "check_run"
        none).1.statusCode = 401 :=
  c4_invalid_signature_rejected demoEnvWithSecret "sha256=bad" "tampered body"
    "check_run" none (by decide) (by decide)

/-- A concrete normalized report used in instantiations. -/
def demoReport : ErrorInfo :=
  { source := "check_run"
    name := "build"
    error_message := "Build failed"
    details := ""
    repo := "owner/repo"
    head_sha := "abc123"
    url := ""
    issue_number := none
    run_id := none }

/-- A structurally well-formed OpenAI chat response carrying the given
content text. -/
def responseWithContent (content : String) : Json :=
  Json.obj
    [("choices", Json.arr
        [Json.obj [("message", Json.obj [("content", Json.str content)])]])]

/-- C5 counterexample: with a backend key configured, a 200 response whose
parsed body is a JSON array makes the extraction at `solution.py:301`
raise an uncaught `TypeError` — `analyze` fails instead of falling back,
refuting "never fails" and "malformed response → fallback"; and a
well-formed response whose content text is empty is returned verbatim,
refuting "its output is always a non-empty string attributable to the
specific report". -/
theorem c5_counterexample_not_robust :
    agent_analyze_error "sk-key" (Except.ok (Json.arr [])) demoReport =
      Except.error PyExc.typeError ∧
    agent_analyze_error "sk-key" (Except.ok (responseWithContent "")) demoReport =
      Except.ok (Json.str "") := by
  constructor <;> rfl

/-- C5 (amended): when no backend key is configured or the backend request
fails, `agent_analyze_error` returns the deterministic rule-based
fallback; when the response parses but extracting
`choices[0].message.content` raises a `KeyError` or an `IndexError`, it
likewise returns the fallback; the fallback is non-empty and names the
source and name of the report.  A successful extraction is returned
verbatim (and may be empty), and a response of the wrong JSON type raises
an uncaught `TypeError` instead of falling back. -/
theorem c5_fallback_on_caught_errors :
    ∀ (key : String) (backend : Except Unit Json) (info : ErrorInfo),
      (key = "" → agent_analyze_error key backend info =
         Except.ok (Json.str (fallback_analysis info))) ∧
      (∀ e, backend = Except.error e → agent_analyze_error key backend info =
         Except.ok (Json.str (fallback_analysis info))) ∧
      (∀ data, backend = Except.ok data →
         openaiContent data = Except.error PyExc.keyError →
         agent_analyze_error key backend info =
           Except.ok (Json.str (fallback_analysis info))) ∧
      (∀ data, backend = Except.ok data →
         openaiContent data = Except.error PyExc.indexError →
         agent_analyze_error key backend info =
           Except.ok (Json.str (fallback_analysis info))) ∧
      (∀ data content, key ≠ "" → backend = Except.ok data →
         openaiContent data = Except.ok content →
         agent_analyze_error key backend info = Except.ok content) ∧
      (∀ data, key ≠ "" → backend = Except.ok data →
         openaiContent data = Except.error PyExc.typeError →
         agent_analyze_error key backend info = Except.error PyExc.typeError) ∧
      fallback_analysis info ≠ "" ∧
      strContains (fallback_analysis info) info.source = true ∧
      strContains (fallback_analysis info) info.name = true := by
  intro key backend info
  refine ⟨?_, ?_, ?_, ?_, ?_, ?_, ?_, ?_, ?_⟩
  · intro h
    simp [agent_analyze_error, h]
  · intro e h
    by_cases hk : key = "" <;> simp [agent_analyze_error, hk, h]
  · intro data hb hc
    by_cases hk : key = "" <;> simp [agent_analyze_error, hk, hb, hc]
  · intro data hb hc
    by_cases hk : key = "" <;> simp [agent_analyze_error, hk, hb, hc]
  · intro data content hk hb hc
    simp [agent_analyze_error, hk, hb, hc]
  · intro data hk hb hc
    simp [agent_analyze_error, hk, hb, hc]
  · apply string_append_ne_empty
    apply string_append_ne_empty
    intro h
    have := congrArg String.length h
    simp [fallbackHeader, String.length_append] at this
    exact absurd this.1.1.1.1 (by decide)
  · show listContains (fallback_analysis info).data info.source.data = true
    simp only [fallback_analysis, fallbackHeader, String.data_append,
      List.append_assoc]
    exact listContains_decomp _ _ _
  · show listContains (fallback_analysis info).data info.name.data = true
    simp only [fallback_analysis, fallbackHeader, String.data_append,
      List.append_assoc]
    apply scanAny_skip
    apply scanAny_skip
    apply scanAny_skip
    exact scanAny_here _ _ (listStarts _ _)

/-- Witness for C5 (amended) at a concrete report: fallback with no key,
with a failed request, with a response missing the "choices" key
(`KeyError`), and with an empty choices list (`IndexError`); verbatim
content on a well-formed response; the uncaught `TypeError` on an
array-shaped response; and the fallback contains the source and name of
the report. -/
theorem c5_fallback_on_caught_errors_witness :
    agent_analyze_error "" (Except.error ()) demoReport =
      Except.ok (Json.str (fallback_analysis demoReport)) ∧
    agent_analyze_error "sk-key" (Except.error ()) demoReport =
      Except.ok (Json.str (fallback_analysis demoReport)) ∧
    agent_analyze_error "sk-key" (Except.ok (Json.obj [])) demoReport =
      Except.ok (Json.str (fallback_analysis demoReport)) ∧
    agent_analyze_error "sk-key" (Except.ok (Json.obj [("choices", Json.arr [])]))
        demoReport =
      Except.ok (Json.str (fallback_analysis demoReport)) ∧
    agent_analyze_error "sk-key" (Except.ok (responseWithContent "All good"))
        demoReport =
      Except.ok (Json.str "All good") ∧
    agent_analyze_error "sk-key" (Except.ok (Json.arr [])) demoReport =
      Except.error PyExc.typeError ∧
    fallback_analysis demoReport ≠ "" ∧
    strContains (fallback_analysis demoReport) demoReport.source = true ∧
    strContains (fallback_analysis demoReport) demoReport.name = true := by
  have h1 := c5_fallback_on_caught_errors "" (Except.error ()) demoReport
  have h2 := c5_fallback_on_caught_errors "sk-key" (Except.error ()) demoReport
  have h3 := c5_fallback_on_caught_errors "sk-key" (Except.ok (Json.obj [])) demoReport
  have h4 := c5_fallback_on_caught_errors "sk-key"
    (Except.ok (Json.obj [("choices", Json.arr [])])) demoReport
  have h5 := c5_fallback_on_caught_errors "sk-key"
    (Except.ok (responseWithContent "All good")) demoReport
  have h6 := c5_fallback_on_caught_errors "sk-key" (Except.ok (Json.arr [])) demoReport
  exact ⟨h1.1 rfl, h2.2.1 () rfl,
    h3.2.2.1 (Json.obj []) rfl rfl,
    h4.2.2.2.1 (Json.obj [("choices", Json.arr [])]) rfl rfl,
    h5.2.2.2.2.1 (responseWithContent "All good") (Json.str "All good")
      (by decide) rfl rfl,
    h6.2.2.2.2.2.1 (Json.arr []) (by decide) rfl rfl,
    h1.2.2.2.2.2.2.1, h1.2.2.2.2.2.2.2.1, h1.2.2.2.2.2.2.2.2⟩

/-- A concrete `issue_comment` payload with the given comment body. -/
def commentPayload (body : String) : Json :=
  Json.obj
    [("comment", Json.obj [("body", Json.str body),
                           ("html_url", Json.str "https://example/c")]),
     ("issue", Json.obj [("number", Json.num 7)]),
     ("repository", Json.obj [("full_name", Json.str "owner/repo")])]

/-- C6: the `issue_comment` extractor returns a report exactly when the
comment body matches one of the seven fixed error patterns of the source;
the match is case-insensitive (it depends only on the lowercased body);
"just a regular comment" yields none and "Error: connection refused"
yields a report. -/
theorem c6_issue_comment_patterns :
    (∀ payload : Json,
       (extract_error_from_issue_comment payload).isSome =
         commentMatchesErrorPattern
           (getStrD (jgetD payload "comment" (Json.obj [])) "body" "")) ∧
    (∀ b b' : String, lowerChars b = lowerChars b' →
       commentMatchesErrorPattern b = commentMatchesErrorPattern b') ∧
    extract_error_from_issue_comment (commentPayload "just a regular comment") = none ∧
    (extract_error_from_issue_comment
        (commentPayload "Error: connection refused")).isSome = true := by
  refine ⟨?_, ?_, by decide, by decide⟩
  · intro payload
    by_cases h : commentMatchesErrorPattern
        (getStrD (jgetD payload "comment" (Json.obj [])) "body" "") = true
    · simp [extract_error_from_issue_comment, h]
    · simp only [Bool.not_eq_true] at h
      simp [extract_error_from_issue_comment, h]
  · intro b b' h
    simp only [commentMatchesErrorPattern, h]

/-- Witness for C6: the general conjuncts applied at concrete inputs —
pattern matching is unchanged under case variation, and the extractor of a
concrete payload agrees with the pattern match of its body. -/
theorem c6_issue_comment_patterns_witness :
    commentMatchesErrorPattern "EXCEPTION: boom" =
      commentMatchesErrorPattern "exception: BOOM" ∧
    (extract_error_from_issue_comment (commentPayload "stack trace attached")).isSome =
      commentMatchesErrorPattern
        (getStrD (jgetD (commentPayload "stack trace attached") "comment" (Json.obj []))
          "body" "") := by
  exact ⟨c6_issue_comment_patterns.2.1 "EXCEPTION: boom" "exception: BOOM" (by decide),
    c6_issue_comment_patterns.1 (commentPayload "stack trace attached")⟩

/-- C7: for a `workflow_run` event with conclusion "failure" (and a truthy
run id), extraction returns a report whose `details` is whatever the
failure-detail fetch produced; when the fetch fails — token missing or the
Actions request failing — `details` is the corresponding non-empty
diagnostic string, and the report is still returned: a fetch failure never
discards the actionable event. -/
theorem c7_workflow_fetch_failure :
    ∀ (env : Env) (payload : Json) (rid : Int),
      (jget (jgetD payload "workflow_run" (Json.obj [])) "conclusion").eqStr
          "failure" = true →
      jgetInt (jgetD payload "workflow_run" (Json.obj [])) "id" = some rid →
      rid ≠ 0 →
      (extract_error_from_workflow_run env payload).1.isSome = true ∧
      Option.map ErrorInfo.details (extract_error_from_workflow_run env payload).1 =
        some (fetch_workflow_failure_details env
          (getStrD (jgetD payload "repository" (Json.obj [])) "full_name" "") rid) ∧
      (env.githubToken = "" →
         Option.map ErrorInfo.details (extract_error_from_workflow_run env payload).1 =
           some "(GitHub token not configured — cannot fetch logs)" ∧
         "(GitHub token not configured — cannot fetch logs)" ≠ "") ∧
      (∀ exc, env.githubToken ≠ "" → env.fetchJobsResult = Except.error exc →
         Option.map ErrorInfo.details (extract_error_from_workflow_run env payload).1 =
           some ("(Failed to fetch workflow jobs: " ++ exc ++ ")") ∧
         ("(Failed to fetch workflow jobs: " ++ exc ++ ")" : String) ≠ "") := by
  intro env payload rid h1 h2 h3
  have hmain : (extract_error_from_workflow_run env payload).1 =
      some { source := "workflow_run"
             name := getStrD (jgetD payload "workflow_run" (Json.obj [])) "name"
               "Unknown Workflow"
             error_message := "Workflow \x27" ++
               pyStr (jget (jgetD payload "workflow_run" (Json.obj [])) "name") ++
               "\x27 failed"
             details := fetch_workflow_failure_details env
               (getStrD (jgetD payload "repository" (Json.obj [])) "full_name" "") rid
             repo := getStrD (jgetD payload "repository" (Json.obj [])) "full_name" ""
             head_sha := getStrD (jgetD payload "workflow_run" (Json.obj []))
               "head_sha" ""
             url := getStrD (jgetD payload "workflow_run" (Json.obj [])) "html_url" ""
             issue_number := none
             run_id := some rid } := by
    simp [extract_error_from_workflow_run, h1, h2, bne_iff_ne, h3]
  refine ⟨by simp [hmain], by simp [hmain], ?_, ?_⟩
  · intro htok
    refine ⟨?_, by decide⟩
    simp [hmain, fetch_workflow_failure_details, htok]
  · intro exc htok hfetch
    constructor
    · simp [hmain, fetch_workflow_failure_details, htok, hfetch]
    · exact string_append_ne_empty _ _ (string_append_ne_empty _ _ (by decide))

/-- A concrete failing `workflow_run` payload. -/
def wfPayload : Json :=
  Json.obj
    [("workflow_run", Json.obj
        [("conclusion", Json.str "failure"),
         ("id", Json.num 5),
         ("name", Json.str "CI"),
         ("head_sha", Json.str "abc123"),
         ("html_url", Json.str "https://example/run")]),
     ("repository", Json.obj [("full_name", Json.str "owner/repo")])]

/-- A concrete environment whose Actions job fetch fails. -/
def fetchFailEnv : Env :=
  { demoEnv with fetchJobsResult := Except.error "boom" }

/-- Witness for C7: at a concrete failing workflow run whose job fetch
errors, a report is still produced and its details are the non-empty
diagnostic string. -/
theorem c7_workflow_fetch_failure_witness :
    (extract_error_from_workflow_run fetchFailEnv wfPayload).1.isSome = true ∧
    Option.map ErrorInfo.details (extract_error_from_workflow_run fetchFailEnv wfPayload).1 =
      some ("(Failed to fetch workflow jobs: " ++ "boom" ++ ")") ∧
    ("(Failed to fetch workflow jobs: " ++ "boom" ++ ")" : String) ≠ "" := by
  have h := c7_workflow_fetch_failure fetchFailEnv wfPayload 5 (by decide) (by rfl)
    (by decide)
  exact ⟨h.1, (h.2.2.2 "boom" (by decide) rfl).1, (h.2.2.2 "boom" (by decide) rfl).2⟩

lemma strStartsWith_append (a b : String) : strStartsWith (a ++ b) a = true := by
  show a.data.isPrefixOf (a ++ b).data = true
  rw [String.data_append]
  exact listStarts _ _

lemma strEndsWith_append (a b : String) : strEndsWith (a ++ b) b = true := by
  show b.data.reverse.isPrefixOf (a ++ b).data.reverse = true
  rw [String.data_append, List.reverse_append]
  exact listStarts _ _

/-- A report whose message names a missing Python module. -/
def mnfReport : ErrorInfo :=
  { demoReport with error_message := "ModuleNotFoundError: No module named requests" }

/-- A report whose message matches no fallback rule. -/
def plainReport : ErrorInfo :=
  { demoReport with error_message := "mystery problem" }

/-- A 301-character error message. -/
def longMsg : String := (List.replicate 301 'x').asString

/-- A report whose message exceeds the 300-character truncation limit. -/
def longReport : ErrorInfo := { demoReport with error_message := longMsg }

/-- C8: the fallback analysis starts with a header naming the source and
name of the report, ends with a quotation of the original error message
truncated to at most 300 characters with an ellipsis exactly when it was
cut, and its bullet list is the advice of every matching rule in table order —
or the single generic manual-review bullet when no rule matches.  At
concrete inputs: a "ModuleNotFoundError" message yields the import-error
bullet, an unrecognized message yields the generic bullet. -/
theorem c8_fallback_format :
    (∀ info : ErrorInfo,
      strStartsWith (fallback_analysis info) (fallbackHeader info) = true ∧
      strEndsWith (fallback_analysis info)
        ("\n\n> Error: `" ++ truncateMsg info.error_message ++ "`") = true ∧
      (info.error_message.length ≤ 300 →
         truncateMsg info.error_message = info.error_message) ∧
      (300 < info.error_message.length →
         truncateMsg info.error_message =
           (info.error_message.data.take 300).asString ++ "..." ∧
         ((info.error_message.data.take 300).asString).length = 300) ∧
      ((fallbackRules.filter (fun r =>
          r.1 (lowerChars (info.error_message ++ "\n" ++ info.details)))).map
            Prod.snd ≠ [] →
         fallbackSuggestions (info.error_message ++ "\n" ++ info.details) =
           (fallbackRules.filter (fun r =>
             r.1 (lowerChars (info.error_message ++ "\n" ++ info.details)))).map
               Prod.snd) ∧
      ((fallbackRules.filter (fun r =>
          r.1 (lowerChars (info.error_message ++ "\n" ++ info.details)))).map
            Prod.snd = [] →
         fallbackSuggestions (info.error_message ++ "\n" ++ info.details) =
           [genericAdvice])) ∧
    strContains (fallback_analysis mnfReport) ("- " ++ "A Python import failed.") = true ∧
    strContains (fallback_analysis plainReport)
      ("- " ++ "Unable to determine an automatic fix.") = true := by
  refine ⟨?_, by decide, by decide⟩
  intro info
  have hdecomp : fallback_analysis info =
      (fallbackHeader info ++
        String.intercalate "\n"
          ((fallbackSuggestions (info.error_message ++ "\n" ++ info.details)).map
            (fun s => "- " ++ s))) ++
        ("\n\n> Error: `" ++ truncateMsg info.error_message ++ "`") := rfl
  refine ⟨?_, ?_, ?_, ?_, ?_, ?_⟩
  · show (fallbackHeader info).data.isPrefixOf (fallback_analysis info).data = true
    simp only [fallback_analysis, String.data_append, List.append_assoc]
    exact listStarts _ _
  · rw [hdecomp]
    exact strEndsWith_append _ _
  · intro h
    have htake : info.error_message.data.take 300 = info.error_message.data :=
      List.take_of_length_le h
    simp only [truncateMsg, htake]
    rw [if_neg (Nat.not_lt.mpr h), String.append_empty]
    exact String.asString_toList _
  · intro h
    constructor
    · simp [truncateMsg, h]
    · rw [List.length_asString, List.length_take]
      have hlen : info.error_message.data.length = info.error_message.length := rfl
      omega
  · intro h
    simp only [fallbackSuggestions]
    rw [if_neg h]
  · intro h
    simp only [fallbackSuggestions]
    rw [if_pos h]

set_option maxRecDepth 4000 in
/-- Witness for C8: the hypothesis-bearing conjuncts applied at concrete
reports — exact truncation below the limit, truncation with ellipsis above
it, and both bullet-list shapes. -/
theorem c8_fallback_format_witness :
    truncateMsg mnfReport.error_message = mnfReport.error_message ∧
    (truncateMsg longReport.error_message =
       (longReport.error_message.data.take 300).asString ++ "..." ∧
     ((longReport.error_message.data.take 300).asString).length = 300) ∧
    fallbackSuggestions (mnfReport.error_message ++ "\n" ++ mnfReport.details) =
      (fallbackRules.filter (fun r =>
        r.1 (lowerChars (mnfReport.error_message ++ "\n" ++ mnfReport.details)))).map
          Prod.snd ∧
    fallbackSuggestions (plainReport.error_message ++ "\n" ++ plainReport.details) =
      [genericAdvice] := by
  refine ⟨(c8_fallback_format.1 mnfReport).2.2.1 (by decide),
    (c8_fallback_format.1 longReport).2.2.2.1 ?_,
    (c8_fallback_format.1 mnfReport).2.2.2.2.1 ?_,
    (c8_fallback_format.1 plainReport).2.2.2.2.2 (by decide)⟩
  · show 300 < longMsg.length
    have hl : longMsg.length = 301 := by
      rw [longMsg, List.length_asString, List.length_replicate]
    omega
  · decide

/-- C9: the `check_run` extractor returns `none` whenever the reported
conclusion is anything other than "failure"; on conclusion "failure" it
returns a report whose `error_message` is the check output summary and
whose `details` is the check output text. -/
theorem c9_check_run_conclusion :
    ∀ payload : Json,
      ((jget (jgetD payload "check_run" (Json.obj [])) "conclusion").eqStr
          "failure" = false →
         extract_error_from_check_run payload = none) ∧
      ((jget (jgetD payload "check_run" (Json.obj [])) "conclusion").eqStr
          "failure" = true →
         (extract_error_from_check_run payload).isSome = true ∧
         Option.map ErrorInfo.error_message (extract_error_from_check_run payload) =
           some (getStrD
             (jgetD (jgetD payload "check_run" (Json.obj [])) "output" (Json.obj []))
             "summary" "No summary available") ∧
         Option.map ErrorInfo.details (extract_error_from_check_run payload) =
           some (getStrD
             (jgetD (jgetD payload "check_run" (Json.obj [])) "output" (Json.obj []))
             "text" "") ∧
         (∀ s, jlookup
             (jgetD (jgetD payload "check_run" (Json.obj [])) "output" (Json.obj []))
             "summary" = some (Json.str s) →
           Option.map ErrorInfo.error_message (extract_error_from_check_run payload) =
             some s) ∧
         (∀ t, jlookup
             (jgetD (jgetD payload "check_run" (Json.obj [])) "output" (Json.obj []))
             "text" = some (Json.str t) →
           Option.map ErrorInfo.details (extract_error_from_check_run payload) =
             some t)) := by
  intro payload
  constructor
  · intro h
    simp [extract_error_from_check_run, h]
  · intro h
    refine ⟨?_, ?_, ?_, ?_, ?_⟩
    · simp [extract_error_from_check_run, h]
    · simp [extract_error_from_check_run, h]
    · simp [extract_error_from_check_run, h]
    · intro s hs
      simp [extract_error_from_check_run, h, getStrD, hs]
    · intro t ht
      simp [extract_error_from_check_run, h, getStrD, ht]

/-- A `check_run` payload whose conclusion is "success". -/
def crSuccessPayload : Json :=
  Json.obj [("check_run", Json.obj [("conclusion", Json.str "success")])]

/-- A failing `check_run` payload with an output summary and text. -/
def crFailPayload : Json :=
  Json.obj
    [("check_run", Json.obj
        [("conclusion", Json.str "failure"),
         ("name", Json.str "build"),
         ("head_sha", Json.str "abc123"),
         ("html_url", Json.str "https://example/check"),
         ("output", Json.obj
            [("summary", Json.str "Build failed"),
             ("text", Json.str "compiler log")])]),
     ("repository", Json.obj [("full_name", Json.str "owner/repo")])]

/-- Witness for C9: a successful check yields no report; a failing check
yields a report carrying the output summary and text. -/
theorem c9_check_run_conclusion_witness :
    extract_error_from_check_run crSuccessPayload = none ∧
    (extract_error_from_check_run crFailPayload).isSome = true ∧
    Option.map ErrorInfo.error_message (extract_error_from_check_run crFailPayload) =
      some "Build failed" ∧
    Option.map ErrorInfo.details (extract_error_from_check_run crFailPayload) =
      some "compiler log" := by
  refine ⟨(c9_check_run_conclusion crSuccessPayload).1 (by decide),
    ((c9_check_run_conclusion crFailPayload).2 (by decide)).1,
    ((c9_check_run_conclusion crFailPayload).2 (by decide)).2.2.2.1 "Build failed" rfl,
    ((c9_check_run_conclusion crFailPayload).2 (by decide)).2.2.2.2 "compiler log" rfl⟩

/-- C10: with a valid signature, a request of any supported event type
whose body is unparseable (or parses to a falsy value, e.g. empty) raises
nothing: the payload is treated as the empty object, the extractor finds no
error, and the endpoint answers 200 with an "ignored" status and performs
no outbound effect. -/
theorem c10_unparseable_body_ignored :
    ∀ (env : Env) (sig raw eventType : String),
      verify_signature env.webhookSecret env.hmacHex raw sig = true →
      (eventType = "check_run" ∨ eventType = "workflow_run" ∨
        eventType = "issue_comment") →
      handle_webhook env sig raw eventType none = (WResp.ignoredNoError, []) ∧
      (∀ j, jtruthy j = false →
         handle_webhook env sig raw eventType (some j) = (WResp.ignoredNoError, [])) ∧
      (handle_webhook env sig raw eventType none).1.statusCode = 200 ∧
      (handle_webhook env sig raw eventType none).1.statusField = "ignored" := by
  intro env sig raw eventType hv hev
  have hcr : extract_error_from_check_run (Json.obj []) = none := rfl
  have hwr : extract_error_from_workflow_run env (Json.obj []) = (none, []) := rfl
  have hic : extract_error_from_issue_comment (Json.obj []) = none := rfl
  have hnone : handle_webhook env sig raw eventType none = (WResp.ignoredNoError, []) := by
    rcases hev with h | h | h <;> subst h <;>
      simp [handle_webhook, hv, hcr, hwr, hic]
  refine ⟨hnone, ?_, by rw [hnone]; rfl, by rw [hnone]; rfl⟩
  intro j hj
  rcases hev with h | h | h <;> subst h <;>
    simp [handle_webhook, hv, hj, hcr, hwr, hic]

/-- Witness for C10: with no secret configured (verification passes), an
unparseable body and an empty-array body are both ignored with 200 for a
concrete supported event type. -/
theorem c10_unparseable_body_ignored_witness :
    handle_webhook demoEnv "sig" "not a json body" "check_run" none =
      (WResp.ignoredNoError, []) ∧
    handle_webhook demoEnv "sig" "[]" "check_run" (some (Json.arr [])) =
      (WResp.ignoredNoError, []) ∧
    (handle_webhook demoEnv "sig" "not a json body" "check_run" none).1.statusCode = 200 ∧
    (handle_webhook demoEnv "sig" "not a json body" "check_run" none).1.statusField =
      "ignored" := by
  have h := c10_unparseable_body_ignored demoEnv "sig" "not a json body" "check_run"
    (by decide) (Or.inl rfl)
  have h2 := c10_unparseable_body_ignored demoEnv "sig" "[]" "check_run"
    (by decide) (Or.inl rfl)
  exact ⟨h.1, h2.2.1 (Json.arr []) rfl, h.2.2.1, h.2.2.2⟩
